import Mathlib

/-!
Verification of the InsightShield vulnerability-analysis pipeline
(package `va_tool`): the scoring engine (processing/scoring.py), the
categorization engine (processing/categorization.py), the analysis and
aggregation stage (processing/analysis.py), the pipeline orchestrator
(processing/core.py), the NVD lookup client (data/api.py) and the CVE
cache store (data/cache.py).

Conventions of the embedding:
* pandas cells that may be missing or NaN are Option values (none = NaN);
* Python floats are modelled as exact rationals;
* a pandas DataFrame is a Table: an explicit list of column names,
  used by the guards of the form col in df.columns in the source,
  together with a list of typed rows;
* Python dicts keyed by strings are association lists in insertion order,
  with first-key-wins lookup (getEntry) and in-place update (setEntry).

The keyword tables NAME_MAPPINGS and BUCKET_MAPPINGS live in
va_tool/data/mappings.py, which is not among the sources; both are
ordered dicts from a label to a list of keyword strings, and are taken
as parameters of type Mappings throughout.
-/

namespace Insider

/-- Test whether the first char list is an initial segment of the second. -/
def leadMatches : List Char → List Char → Bool
  | [], _ => true
  | _ :: _, [] => false
  | p :: ps, c :: cs => p == c && leadMatches ps cs

/-- Occurrence of `pat` as a contiguous segment of the second list. -/
def hasSub (pat : List Char) : List Char → Bool
  | [] => leadMatches pat []
  | c :: t => leadMatches pat (c :: t) || hasSub pat t

/-- Model of the Python substring test `pat in hay` on strings. -/
def pyIn (pat hay : String) : Bool := hasSub pat.data hay.data

/-- Model of the Python `str.lower` (ASCII-faithful). -/
def lowerStr (s : String) : String := String.mk (s.data.map Char.toLower)

/-- Scalar input of the `categorize_*_score` functions of
processing/scoring.py: `null` models None and NaN (`pd.isna` true),
`num q` models every value `float()` converts (numbers and numeric
strings), `nonNumeric` models values on which `float()` raises
ValueError or TypeError. -/
inductive ScoreCell where
  | null
  | num (q : ℚ)
  | nonNumeric
  deriving DecidableEq

/-- Model of `categorize_cvss_score` (processing/scoring.py). -/
def categorize_cvss_score : ScoreCell → String
  | .null => "Not Assigned"
  | .nonNumeric => "Not Assigned"
  | .num q =>
    if 9 ≤ q then "Critical"
    else if 7 ≤ q then "High"
    else if 4 ≤ q then "Medium"
    else if mkRat 1 10 ≤ q then "Low"
    else "Not Assigned"

/-- Model of `categorize_epss_score` (processing/scoring.py). -/
def categorize_epss_score : ScoreCell → String
  | .null => "Not Assigned"
  | .nonNumeric => "Not Assigned"
  | .num q =>
    if mkRat 9 10 ≤ q then "Critical"
    else if mkRat 7 10 ≤ q then "High"
    else if mkRat 4 10 ≤ q then "Medium"
    else if mkRat 1 10 ≤ q then "Low"
    else "Not Assigned"

/-- Model of `categorize_vpr_score` (processing/scoring.py). -/
def categorize_vpr_score : ScoreCell → String
  | .null => "Not Assigned"
  | .nonNumeric => "Not Assigned"
  | .num q =>
    if 9 ≤ q then "Critical"
    else if 7 ≤ q then "High"
    else if 4 ≤ q then "Medium"
    else if mkRat 1 10 ≤ q then "Low"
    else "Not Assigned"

/-- Model of the `priority_scores` dict lookup inside
`calculate_exploitability_score` (processing/scoring.py); the final 0 is
the `dict.get(key, 0)` default for keys outside the table. -/
def priority_scores (s : String) : ℤ :=
  if s = "Critical" then 4
  else if s = "High" then 3
  else if s = "Medium" then 2
  else if s = "Low" then 1
  else if s = "Not Assigned" then 0
  else if s = "Yes" then 4
  else if s = "No" then 0
  else 0

/-- One row of the working vulnerability table.  Each field is a column
the pipeline reads or writes; none stands both for a NaN cell and for the
cell of a column the table does not have (`Table.cols` records which
columns exist, mirroring `df.columns`). -/
structure Row where
  pluginId : Option String := none
  cve : Option String := none
  host : Option String := none
  name : Option String := none
  risk : Option String := none
  cvssRaw : Option ℚ := none
  epssRaw : Option ℚ := none
  vprRaw : Option ℚ := none
  bucket : Option String := none
  cvssCat : Option String := none
  epssCat : Option String := none
  vprCat : Option String := none
  kevListed : Option String := none
  exploitability : Option ℤ := none
  pubDate : Option String := none
  daysAfter : Option ℤ := none
  patchStatus : Option String := none
  combinedPriority : Option ℤ := none
  deriving DecidableEq

/-- Model of a pandas DataFrame: the column list plus the typed rows. -/
structure Table where
  cols : List String
  rows : List Row
  deriving DecidableEq

/-- Column assignment df[c] = ... introduces c when absent. -/
def addCol (c : String) (cs : List String) : List String :=
  if c ∈ cs then cs else cs ++ [c]

/-- View of an optional numeric cell as a `ScoreCell` (none = NaN). -/
def toCell : Option ℚ → ScoreCell
  | none => .null
  | some q => .num q

/-- Model of `calculate_exploitability_score` (processing/scoring.py).
In the source, `row.get(col, default)` yields the default when the column
is absent and NaN when the cell is empty; both are none here, and both
contribute 0 (the dict lookup returns 0 both on NaN and on the defaults
Not Assigned and No). -/
def calculate_exploitability_score (r : Row) : ℤ :=
  let epss_score := priority_scores (r.epssCat.getD "Not Assigned")
  let vpr_score := priority_scores (r.vprCat.getD "Not Assigned")
  let kev_score := priority_scores (r.kevListed.getD "No")
  epss_score + vpr_score + kev_score

/-- First stage of `add_scoring_data`: the CVSS category column, added
only when the CVSS score column exists. -/
def addCvssCat (t : Table) : Table :=
  if "CVSS v3.0 Base Score" ∈ t.cols then
    { cols := addCol "CVSS Category" t.cols,
      rows := t.rows.map fun r =>
        { r with cvssCat := some (categorize_cvss_score (toCell r.cvssRaw)) } }
  else t

/-- Second stage of `add_scoring_data`: the EPSS category column. -/
def addEpssCat (t : Table) : Table :=
  if "EPSS Score" ∈ t.cols then
    { cols := addCol "EPSS Category" t.cols,
      rows := t.rows.map fun r =>
        { r with epssCat := some (categorize_epss_score (toCell r.epssRaw)) } }
  else t

/-- Third stage of `add_scoring_data`: the VPR category column. -/
def addVprCat (t : Table) : Table :=
  if "VPR Score" ∈ t.cols then
    { cols := addCol "VPR Category" t.cols,
      rows := t.rows.map fun r =>
        { r with vprCat := some (categorize_vpr_score (toCell r.vprRaw)) } }
  else t

/-- Last stage of `add_scoring_data`: the exploitability score column,
computed only when the EPSS and VPR categories and the KEV flag all
exist at this point. -/
def addExploit (t : Table) : Table :=
  if "EPSS Category" ∈ t.cols ∧ "VPR Category" ∈ t.cols ∧ "KEV Listed" ∈ t.cols then
    { cols := addCol "Exploitability Score" t.cols,
      rows := t.rows.map fun r =>
        { r with exploitability := some (calculate_exploitability_score r) } }
  else t

/-- Model of `add_scoring_data` (processing/scoring.py): the three
category columns in order, then the exploitability column. -/
def add_scoring_data (t : Table) : Table :=
  addExploit (addVprCat (addEpssCat (addCvssCat t)))

/-- Ordered label-to-keywords tables (NAME_MAPPINGS, BUCKET_MAPPINGS of
the absent va_tool/data/mappings.py), in dict insertion order. -/
abbrev Mappings := List (String × List String)

/-- Name-pattern half of `assign_severity`
(processing/categorization.py): the first severity, in mapping order, one
of whose patterns occurs in the lower-cased name wins; no match gives
Check Needed; a missing name gives Informational. -/
def severityFromName (nm : Mappings) (name : Option String) : String :=
  match name with
  | none => "Informational"
  | some n =>
    let nl := lowerStr n
    (nm.find? fun sp => sp.2.any fun pat => pyIn (lowerStr pat) nl).elim
      "Check Needed" Prod.fst

/-- Model of `assign_severity` (processing/categorization.py): a declared
risk wins when it is truthy (non-empty) and not the sentinel None string;
`pd.isna` is false on every string, and a NaN risk cell arrives as none. -/
def assign_severity (nm : Mappings) (name existing_risk : Option String) : String :=
  match existing_risk with
  | some s => if s = "" ∨ s = "None" then severityFromName nm name else s
  | none => severityFromName nm name

/-- Join with a comma and a space, as the Python `", ".join`. -/
def joinComma : List String → String
  | [] => ""
  | [b] => b
  | b :: rest => b ++ ", " ++ joinComma rest

/-- Model of `categorize_name` (processing/categorization.py).  The
source collects the matching buckets into a Python set and joins them;
set iteration order is unspecified, so this model fixes mapping order
(all properties proved below are order-independent). -/
def categorize_name (bm : Mappings) (name : Option String) : String :=
  match name with
  | none => ""
  | some n =>
    let nl := lowerStr n
    let assigned := (bm.filter fun bk => bk.2.any fun kw => pyIn (lowerStr kw) nl).map Prod.fst
    if assigned.isEmpty then "Miscellaneous" else joinComma assigned

/-- Model of `categorize_vulnerabilities` (processing/categorization.py). -/
def categorize_vulnerabilities (nm bm : Mappings) (t : Table) : Table :=
  { cols := addCol "Bucket" (addCol "Risk" t.cols),
    rows := t.rows.map fun r =>
      { r with risk := some (assign_severity nm r.name r.risk),
               bucket := some (categorize_name bm r.name) } }

/-- One patch reference record of a cache entry (data/api.py). -/
structure PatchRef where
  url : String
  source : String
  tags : List String
  deriving DecidableEq

/-- Patch information of a cache entry. -/
structure PatchInfo where
  status : String
  references : List PatchRef
  deriving DecidableEq

/-- One CVE cache entry: publication date (ISO, date only) and patch
information. -/
structure CacheEntry where
  date_obj : Option String
  patch_info : PatchInfo
  deriving DecidableEq

/-- The job CVE cache: a Python dict in insertion order. -/
abbrev Cache := List (String × CacheEntry)

/-- Dict assignment d[k] = v on the association-list model. -/
def setEntry (k : String) (v : CacheEntry) : Cache → Cache
  | [] => [(k, v)]
  | kv :: rest => if kv.1 = k then (k, v) :: rest else kv :: setEntry k v rest

/-- Dict lookup d.get(k) on the association-list model. -/
def getEntry (k : String) : Cache → Option CacheEntry
  | [] => none
  | kv :: rest => if kv.1 = k then some kv.2 else getEntry k rest

/-- Severity-value map of `generate_common_critical`
(processing/analysis.py), the dict passed to pandas map with keys
Critical 4, High 3, Medium 2, Low 1, Not Assigned 0.  On any other key
pandas map yields NaN; that case is unreachable for the filtered rows,
whose categories are Critical or High, and is sent to 0 here. -/
def severityValue (s : Option String) : ℤ :=
  if s = some "Critical" then 4
  else if s = some "High" then 3
  else if s = some "Medium" then 2
  else if s = some "Low" then 1
  else 0

/-- Combined Priority of a filtered row: twice the CVSS severity value
plus the EPSS and VPR severity values. -/
def combinedPriorityOf (r : Row) : ℤ :=
  2 * severityValue r.cvssCat + severityValue r.epssCat + severityValue r.vprCat

/-- Stored Combined Priority used as first sort key. -/
def cpOf (r : Row) : ℤ := r.combinedPriority.getD 0

/-- Raw CVSS score as second sort key: pandas places NaN cells last
(na position last), i.e. below every number in a descending sort. -/
def rawCvssKey (r : Row) : WithBot ℚ :=
  match r.cvssRaw with
  | some q => (q : WithBot ℚ)
  | none => ⊥

/-- The comes-no-later-than relation realised by the descending
two-column sort of `generate_common_critical`. -/
def ccLE (a b : Row) : Prop :=
  cpOf b < cpOf a ∨ (cpOf a = cpOf b ∧ rawCvssKey b ≤ rawCvssKey a)

instance : DecidableRel ccLE := fun a b => by
  unfold ccLE; infer_instance

instance : IsTotal Row ccLE := by
  constructor
  intro a b
  rcases lt_trichotomy (cpOf a) (cpOf b) with h | h | h
  · exact Or.inr (Or.inl h)
  · rcases le_total (rawCvssKey b) (rawCvssKey a) with h₂ | h₂
    · exact Or.inl (Or.inr ⟨h, h₂⟩)
    · exact Or.inr (Or.inr ⟨h.symm, h₂⟩)
  · exact Or.inl (Or.inl h)

instance : IsTrans Row ccLE := by
  constructor
  intro a b c hab hbc
  rcases hab with h₁ | ⟨e₁, k₁⟩
  · rcases hbc with h₂ | ⟨e₂, k₂⟩
    · exact Or.inl (lt_trans h₂ h₁)
    · exact Or.inl (e₂ ▸ h₁)
  · rcases hbc with h₂ | ⟨e₂, k₂⟩
    · exact Or.inl (e₁ ▸ h₂)
    · exact Or.inr ⟨e₁.trans e₂, le_trans k₂ k₁⟩

/-- Priority-only comparator, used when the raw CVSS column is absent. -/
def ccLE1 (a b : Row) : Prop := cpOf b ≤ cpOf a

instance : DecidableRel ccLE1 := fun a b => by
  unfold ccLE1; infer_instance

instance : IsTotal Row ccLE1 := by
  constructor; intro a b; exact (le_total (cpOf b) (cpOf a)).imp id id

instance : IsTrans Row ccLE1 := by
  constructor; intro a b c hab hbc; exact le_trans hbc hab

/-- Model of `generate_common_critical` (processing/analysis.py): guard
on the four category columns, filter to rows Critical-or-High in all
three categories and KEV-listed, attach the Combined Priority, and sort
descending by it, then by the raw CVSS score when that column exists.
The source returns early on an empty filter result, which coincides with
sorting the empty list; the column selection step drops only columns the
typed row does not model, and clean_for_json is an order-preserving
representation change.  pandas quicksort is unstable, so any sort
realising the lexicographic key order is faithful; insertion sort here. -/
def generate_common_critical (t : Table) : List Row :=
  if "CVSS Category" ∈ t.cols ∧ "EPSS Category" ∈ t.cols ∧
     "VPR Category" ∈ t.cols ∧ "KEV Listed" ∈ t.cols then
    let filtered := t.rows.filter fun r =>
      decide ((r.cvssCat = some "Critical" ∨ r.cvssCat = some "High") ∧
              (r.epssCat = some "Critical" ∨ r.epssCat = some "High") ∧
              (r.vprCat = some "Critical" ∨ r.vprCat = some "High") ∧
              r.kevListed = some "Yes")
    let priced := filtered.map fun r =>
      { r with combinedPriority := some (combinedPriorityOf r) }
    if "CVSS v3.0 Base Score" ∈ t.cols then priced.insertionSort ccLE
    else priced.insertionSort ccLE1
  else []

/-- Enrichment map of `analyze_vulnerability_data`
(processing/analysis.py): the CVE publication date, days after
discovery, KEV listing and patch status cells of one row.  daysSince
abstracts the day difference between today and a parsed ISO date. -/
def enrichRow (kevSet : List String) (cache : Cache)
    (daysSince : String → ℤ) (r : Row) : Row :=
  let pub : Option String :=
    match r.cve with
    | some c => (getEntry c cache).bind fun e => e.date_obj
    | none => none
  { r with
    pubDate := pub,
    daysAfter :=
      match pub with
      | some d => if d = "" then none else some (daysSince d)
      | none => none,
    kevListed := some (match r.cve with
      | some c => if c ∈ kevSet then "Yes" else "No"
      | none => "No"),
    patchStatus := some (match r.cve with
      | some c => ((getEntry c cache).map fun e => e.patch_info.status).getD "Unknown"
      | none => "Unknown") }

/-- Model of `analyze_vulnerability_data` (processing/analysis.py):
enrich every row, then split off the check-needed and analyzed views.
Returned are result_df, check_needed_df and analyzed_df; every
generator of the results dict, `generate_common_critical` included, is
a function of analyzed_df alone. -/
def analyze_vulnerability_data (kevSet : List String) (cache : Cache)
    (daysSince : String → ℤ) (t : Table) : Table × Table × Table :=
  let cols := addCol "Patch Status" (addCol "KEV Listed"
    (addCol "Days After Discovery" (addCol "CVE Published Date" t.cols)))
  let rows := t.rows.map (enrichRow kevSet cache daysSince)
  let filtered := rows.filter fun r =>
    decide (¬ (r.risk = some "None" ∨ r.risk = some "Informational"))
  let check_needed := filtered.filter fun r => decide (r.risk = some "Check Needed")
  let analyzed := filtered.filter fun r => decide (r.risk ≠ some "Check Needed")
  (⟨cols, rows⟩, ⟨cols, check_needed⟩, ⟨cols, analyzed⟩)

/-- Retry cap NVD_RETRY_ATTEMPTS of utils/config.py. -/
def NVD_RETRY_ATTEMPTS : ℕ := 5

/-- One raw reference record of an NVD response; source uses the default
Unknown when the source field is absent. -/
structure NvdRef where
  url : String
  source : Option String
  tags : List String
  deriving DecidableEq

/-- The parsed CVE payload of a successful, non-empty NVD response:
the date-only part of the published field (none when absent), the
reference records, and whether workaround data is present. -/
structure CveData where
  published : Option String
  references : List NvdRef
  hasWorkarounds : Bool
  deriving DecidableEq

/-- Outcome of one HTTP request of the retry loop of
`fetch_cve_details` (data/api.py): a 403 or 429 rate limit, a raised
requests.RequestException (transport failure, bad status, bad JSON), or
a 2xx response whose vulnerabilities list is empty (none) or carries
data (some). -/
inductive ApiOutcome where
  | rateLimited
  | requestError
  | success (d : Option CveData)
  deriving DecidableEq

/-- True exactly on a success outcome carrying a non-empty result set. -/
def hasData : ApiOutcome → Bool
  | .success (some _) => true
  | _ => false

/-- The negative entry cached on timeout or exhaustion. -/
def notFoundEntry : CacheEntry :=
  { date_obj := none, patch_info := { status := "CVE Not Found", references := [] } }

/-- Case-insensitive patch-evidence tag test of data/api.py. -/
def isPatchTag (tag : String) : Bool :=
  lowerStr tag = "patch" || lowerStr tag = "vendor advisory" ||
    lowerStr tag = "third party advisory"

/-- Cache entry built from a non-empty NVD result (success branch of
data/api.py): references with a patch-evidence tag become patch links;
the status is Available when any link exists, else Workaround Available
when workaround data is present, else Not Found. -/
def entryOfData (d : CveData) : CacheEntry :=
  let patch_links := (d.references.filter fun ref => ref.tags.any isPatchTag).map
    fun ref => { url := ref.url, source := ref.source.getD "Unknown", tags := ref.tags }
  let status :=
    if patch_links.isEmpty then
      if d.hasWorkarounds then "Workaround Available" else "Not Found"
    else "Available"
  { date_obj := d.published, patch_info := { status := status, references := patch_links } }

/-- Retry loop of `fetch_cve_details`.  env i gives, for loop iteration
i, the wall-clock time elapsed at the loop head and the outcome of the
request were it issued; the last component counts issued requests.  The
loop head first short-circuits to the negative entry when the elapsed
time exceeds the timeout budget; a success with data caches and returns
the built entry; every other outcome consumes the attempt; exhaustion
caches and returns the negative entry. -/
def fetchLoop (cveId : String) (cache : Cache) (timeout : ℚ)
    (env : ℕ → ℚ × ApiOutcome) : ℕ → ℕ → CacheEntry × Cache × ℕ
  | _, 0 => (notFoundEntry, setEntry cveId notFoundEntry cache, 0)
  | i, fuel + 1 =>
    let p := env i
    if timeout < p.1 then (notFoundEntry, setEntry cveId notFoundEntry cache, 0)
    else
      match p.2 with
      | .success (some d) => (entryOfData d, setEntry cveId (entryOfData d) cache, 1)
      | _ =>
        let q := fetchLoop cveId cache timeout env (i + 1) fuel
        (q.1, q.2.1, q.2.2 + 1)

/-- Model of `fetch_cve_details` (data/api.py), returning the entry, the
updated cache and the number of HTTP requests issued.  A cache hit
returns the stored entry at once, with no request. -/
def fetch_cve_details (cveId : String) (cache : Cache)
    (env : ℕ → ℚ × ApiOutcome) (timeout : ℚ) : CacheEntry × Cache × ℕ :=
  match getEntry cveId cache with
  | some e => (e, cache, 0)
  | none => fetchLoop cveId cache timeout env 0 NVD_RETRY_ATTEMPTS

/-- The references CSV cell of a cache record holds json.dumps output;
this models the stored string: wellFormed for a string json.loads parses
back (as json.dumps output always is), malformed for anything json.loads
rejects. -/
inductive RefsCell where
  | wellFormed (refs : List PatchRef)
  | malformed
  deriving DecidableEq

/-- One CSV record of the cache file (data/cache.py).  A NaN date cell
reads back as none. -/
structure CacheRecord where
  cve_id : String
  date_obj : Option String
  patch_status : String
  references : RefsCell
  cached_date : String
  deriving DecidableEq

/-- Model of `save_cve_cache` (data/cache.py): serialise the whole
mapping, one record per entry in dict insertion order, stamping each
record with the current date. -/
def save_cve_cache (cache : Cache) (today : String) : List CacheRecord :=
  cache.map fun kv =>
    { cve_id := kv.1,
      date_obj := kv.2.date_obj,
      patch_status := kv.2.patch_info.status,
      references := .wellFormed kv.2.patch_info.references,
      cached_date := today }

/-- Deserialisation of one cache record (data/cache.py): a malformed
references cell defaults to the empty list rather than failing the row. -/
def loadRecord (cr : CacheRecord) : CacheEntry :=
  { date_obj := cr.date_obj,
    patch_info := { status := cr.patch_status,
                    references := match cr.references with
                      | .wellFormed l => l
                      | .malformed => [] } }

/-- Model of `load_cve_cache` (data/cache.py): none models a missing
cache file (empty dict, not an error); otherwise each record becomes an
entry; a later record for the same id overwrites an earlier one, as
when building a dict. -/
def load_cve_cache : Option (List CacheRecord) → Cache
  | none => []
  | some recs => recs.foldl (fun c cr => setEntry cr.cve_id (loadRecord cr) c) []

/-- First-occurrence deduplication, as pandas Series.unique. -/
def uniqueFirst (l : List String) : List String :=
  l.foldl (fun acc c => if c ∈ acc then acc else acc ++ [c]) []

/-- Step 3 of `process_vulnerability_data` (processing/core.py): drop
rows whose risk is None or Informational; a view, the columns stay. -/
def filter_informational (t : Table) : Table :=
  { cols := t.cols,
    rows := t.rows.filter fun r =>
      decide (¬ (r.risk = some "None" ∨ r.risk = some "Informational")) }

/-- Step 4 of `process_vulnerability_data` (processing/core.py): fetch
every distinct uncached CVE id of the working table in first-occurrence
order, threading the in-memory cache; env gives each CVE id its network
behaviour. -/
def runFetchPhase (cache0 : Cache) (env : String → ℕ → ℚ × ApiOutcome)
    (working : Table) : Cache :=
  let uniqueCves := uniqueFirst (working.rows.filterMap fun r => r.cve)
  let cvesToFetch := uniqueCves.filter fun c => decide (getEntry c cache0 = none)
  cvesToFetch.foldl (fun cc c => (fetch_cve_details c cc (env c) 30).2.1) cache0

/-- Model of `process_vulnerability_data` (processing/core.py): initial
categorization, the informational filter, the fetch phase over the CVE
ids of the working table missing from the cache (env gives each CVE its
network behaviour; the cache file handling of step 1 and the save of
step 4 are the load and save models above), scoring, and analysis.
Returned are vuln_df, processed_df, check_needed_df and analyzed_df. -/
def process_vulnerability_data (nm bm : Mappings) (t : Table)
    (kevSet : List String) (cache0 : Cache)
    (env : String → ℕ → ℚ × ApiOutcome) (daysSince : String → ℤ) :
    Table × Table × Table × Table :=
  let df := categorize_vulnerabilities nm bm t
  let working := filter_informational df
  let cache := runFetchPhase cache0 env working
  let scored := add_scoring_data working
  let a := analyze_vulnerability_data kevSet cache daysSince scored
  (t, a.1, a.2.1, a.2.2)

/-! ### Concrete example inputs, used by the closed instance theorems -/

/-- Example analyzed table for the common-critical aggregation: two
qualifying rows (one High across the board, one Critical) and one row
excluded by its Low CVSS category. -/
def egTableCC : Table :=
  { cols := ["CVSS v3.0 Base Score", "CVSS Category", "EPSS Category",
             "VPR Category", "KEV Listed"],
    rows := [{ cvssRaw := some (mkRat 75 10), cvssCat := some "High",
               epssCat := some "High", vprCat := some "High",
               kevListed := some "Yes" },
             { cvssRaw := some (mkRat 98 10), cvssCat := some "Critical",
               epssCat := some "Critical", vprCat := some "Critical",
               kevListed := some "Yes" },
             { cvssCat := some "Low", epssCat := some "High",
               vprCat := some "High", kevListed := some "Yes" }] }

/-- Example one-entry cache. -/
def egCache1 : Cache := [("CVE-2024-1234", notFoundEntry)]

/-- Example cache record whose references cell is malformed. -/
def egRecMal : CacheRecord :=
  { cve_id := "CVE-2099-0002", date_obj := none, patch_status := "Available",
    references := .malformed, cached_date := "2026-10-12" }

/-- Example input table with a declared non-canonical risk label. -/
def egTableBanana : Table :=
  { cols := ["Name", "Risk"],
    rows := [{ name := some "x", risk := some "Banana" }] }

/-- Example categorized row: the Banana table row after categorization. -/
def egRowBananaOut : Row :=
  { name := some "x", risk := some "Banana", bucket := some "Miscellaneous" }

/-- Example name mapping carrying a None severity label. -/
def egNmNone : Mappings := [("None", ["kernel"])]

/-- Example input table whose single row matches the kernel pattern. -/
def egTableKernel : Table :=
  { cols := ["Name", "Risk"], rows := [{ name := some "Kernel thing" }] }

/-- Example input table with a pre-existing exploitability column and no
KEV column. -/
def egTableExploit : Table :=
  { cols := ["Name", "Risk", "Exploitability Score"], rows := [] }

/-- Example input table with one declared High row. -/
def egTableHigh : Table :=
  { cols := ["Name", "Risk"],
    rows := [{ name := some "x", risk := some "High" }] }

/-- Example network environment that always fails at the transport
level, at elapsed time zero. -/
def egEnvErr : ℕ → ℚ × ApiOutcome := fun _ => (0, .requestError)

/-- Example network environment answering with an empty result set. -/
def egEnvEmpty : ℕ → ℚ × ApiOutcome := fun _ => (0, .success none)

/-- Example bucket mapping. -/
def egBm : Mappings := [("Web Servers", ["apache"])]

/-! ### General lemmas about the embedding -/

theorem mem_addCol {a c : String} {cs : List String} :
    a ∈ addCol c cs ↔ a = c ∨ a ∈ cs := by
  unfold addCol
  split_ifs with h
  · constructor
    · exact Or.inr
    · rintro (rfl | ha)
      · exact h
      · exact ha
  · rw [List.mem_append, List.mem_singleton]
    exact or_comm

theorem getEntry_setEntry_self (k : String) (v : CacheEntry) :
    ∀ c : Cache, getEntry k (setEntry k v c) = some v
  | [] => by simp [setEntry, getEntry]
  | kv :: rest => by
    by_cases h : kv.1 = k
    · simp [setEntry, getEntry, h]
    · simp [setEntry, getEntry, h, getEntry_setEntry_self k v rest]

theorem getEntry_setEntry_ne (k k' : String) (v : CacheEntry) (h : k' ≠ k) :
    ∀ c : Cache, getEntry k' (setEntry k v c) = getEntry k' c
  | [] => by simp [setEntry, getEntry, Ne.symm h]
  | kv :: rest => by
    by_cases h₁ : kv.1 = k
    · have : kv.1 ≠ k' := by rw [h₁]; exact Ne.symm h
      simp [setEntry, getEntry, h₁, Ne.symm h, this]
    · simp [setEntry, getEntry, h₁, getEntry_setEntry_ne k k' v h rest]

theorem getEntry_eq_none (k : String) :
    ∀ c : Cache, k ∉ c.map Prod.fst → getEntry k c = none
  | [] => fun _ => rfl
  | kv :: rest => by
    intro hk
    rw [List.map_cons, List.mem_cons] at hk
    push_neg at hk
    simp only [getEntry]
    rw [if_neg (fun e => hk.1 e.symm)]
    exact getEntry_eq_none k rest hk.2

/-! ### Scoring theorems -/

/-- C2: each numeric-to-category mapper is total, maps null and
non-numeric input to Not Assigned, and bands a numeric score by the
fixed thresholds; the VPR mapper coincides with the CVSS mapper. -/
theorem categorize_score_bands (q : ℚ) :
    (categorize_cvss_score .null = "Not Assigned" ∧
     categorize_cvss_score .nonNumeric = "Not Assigned" ∧
     categorize_epss_score .null = "Not Assigned" ∧
     categorize_epss_score .nonNumeric = "Not Assigned" ∧
     categorize_vpr_score .null = "Not Assigned" ∧
     categorize_vpr_score .nonNumeric = "Not Assigned") ∧
    (∀ c : ScoreCell, categorize_vpr_score c = categorize_cvss_score c) ∧
    ((9 ≤ q → categorize_cvss_score (.num q) = "Critical") ∧
     (7 ≤ q → q < 9 → categorize_cvss_score (.num q) = "High") ∧
     (4 ≤ q → q < 7 → categorize_cvss_score (.num q) = "Medium") ∧
     (mkRat 1 10 ≤ q → q < 4 → categorize_cvss_score (.num q) = "Low") ∧
     (q < mkRat 1 10 → categorize_cvss_score (.num q) = "Not Assigned")) ∧
    ((mkRat 9 10 ≤ q → categorize_epss_score (.num q) = "Critical") ∧
     (mkRat 7 10 ≤ q → q < mkRat 9 10 → categorize_epss_score (.num q) = "High") ∧
     (mkRat 4 10 ≤ q → q < mkRat 7 10 → categorize_epss_score (.num q) = "Medium") ∧
     (mkRat 1 10 ≤ q → q < mkRat 4 10 → categorize_epss_score (.num q) = "Low") ∧
     (q < mkRat 1 10 → categorize_epss_score (.num q) = "Not Assigned")) ∧
    (categorize_cvss_score (.num 9) = "Critical" ∧
     categorize_cvss_score (.num (mkRat 8999 1000)) = "High" ∧
     categorize_cvss_score (.num 0) = "Not Assigned") := by
  have d₁ : (mkRat 1 10 : ℚ) < 4 := by decide
  have d₂ : (4 : ℚ) < 7 := by decide
  have d₃ : (7 : ℚ) < 9 := by decide
  have e₁ : (mkRat 1 10 : ℚ) < mkRat 4 10 := by decide
  have e₂ : (mkRat 4 10 : ℚ) < mkRat 7 10 := by decide
  have e₃ : (mkRat 7 10 : ℚ) < mkRat 9 10 := by decide
  refine ⟨⟨rfl, rfl, rfl, rfl, rfl, rfl⟩, ?_, ?_, ?_, ?_⟩
  · intro c
    cases c <;> rfl
  · refine ⟨?_, ?_, ?_, ?_, ?_⟩ <;>
      (intros; simp only [categorize_cvss_score]; split_ifs <;> first | rfl | linarith)
  · refine ⟨?_, ?_, ?_, ?_, ?_⟩ <;>
      (intros; simp only [categorize_epss_score]; split_ifs <;> first | rfl | linarith)
  · refine ⟨by decide, by decide, by decide⟩

/-- Witness for C2 at the concrete score 8. -/
theorem categorize_score_bands_witness :
    categorize_cvss_score (.num 8) = "High" :=
  (categorize_score_bands 8).2.2.1.2.1 (by decide) (by decide)

/-- C3: the exploitability score of a row is the sum of exactly three
lookups of the fixed priority table at the EPSS category, the VPR
category and the KEV flag; a missing value and a value outside the
table contribute 0, and the CVSS category does not contribute. -/
theorem exploitability_three_term_sum (r : Row) (s : String)
    (hs : s ∉ ["Critical", "High", "Medium", "Low", "Not Assigned", "Yes", "No"]) :
    calculate_exploitability_score r =
      priority_scores (r.epssCat.getD "Not Assigned") +
      priority_scores (r.vprCat.getD "Not Assigned") +
      priority_scores (r.kevListed.getD "No") ∧
    priority_scores s = 0 ∧
    (∀ c, calculate_exploitability_score { r with cvssCat := c } =
      calculate_exploitability_score r) ∧
    calculate_exploitability_score
      { r with epssCat := none, vprCat := none, kevListed := none } = 0 := by
  refine ⟨rfl, ?_, fun c => rfl, rfl⟩
  simp only [List.mem_cons, List.not_mem_nil, or_false] at hs
  push_neg at hs
  obtain ⟨h₁, h₂, h₃, h₄, h₅, h₆, h₇⟩ := hs
  simp [priority_scores, h₁, h₂, h₃, h₄, h₅, h₆, h₇]

/-- Witness for C3 at the default row and an unlisted label. -/
theorem exploitability_three_term_sum_witness :
    calculate_exploitability_score {} =
      priority_scores ((({} : Row)).epssCat.getD "Not Assigned") +
      priority_scores ((({} : Row)).vprCat.getD "Not Assigned") +
      priority_scores ((({} : Row)).kevListed.getD "No") ∧
    priority_scores "Unknown" = 0 ∧
    (∀ c, calculate_exploitability_score { ({} : Row) with cvssCat := c } =
      calculate_exploitability_score {}) ∧
    calculate_exploitability_score
      { ({} : Row) with epssCat := none, vprCat := none, kevListed := none } = 0 :=
  exploitability_three_term_sum {} "Unknown" (by decide)

/-! ### Aggregation: common critical -/

/-- C1: every row of the common critical aggregation is Critical or High
in the CVSS, EPSS and VPR categories and KEV-listed; its Combined
Priority is twice the CVSS severity value plus the EPSS and VPR severity
values; and the output is sorted with the Combined Priority
non-increasing and, within equal priorities, the raw CVSS key
non-increasing (a NaN raw score ordering below every number, as pandas
places NaN cells last).  The hypothesis records that the analyzed table
carries the raw CVSS score column, as every table produced by the
pipeline with a CVSS Category column does. -/
theorem common_critical_filter_priority_sorted (t : Table)
    (hraw : "CVSS v3.0 Base Score" ∈ t.cols) :
    (∀ r ∈ generate_common_critical t,
        (r.cvssCat = some "Critical" ∨ r.cvssCat = some "High") ∧
        (r.epssCat = some "Critical" ∨ r.epssCat = some "High") ∧
        (r.vprCat = some "Critical" ∨ r.vprCat = some "High") ∧
        r.kevListed = some "Yes" ∧
        r.combinedPriority =
          some (2 * severityValue r.cvssCat + severityValue r.epssCat +
            severityValue r.vprCat)) ∧
    (generate_common_critical t).Sorted (fun a b =>
        cpOf b ≤ cpOf a ∧ (cpOf a = cpOf b → rawCvssKey b ≤ rawCvssKey a)) := by
  simp only [generate_common_critical]
  split_ifs with hg
  · constructor
    · intro r hr
      rw [List.mem_insertionSort] at hr
      obtain ⟨r₀, hr₀, rfl⟩ := List.mem_map.mp hr
      have hp := of_decide_eq_true (List.mem_filter.mp hr₀).2
      obtain ⟨h₁, h₂, h₃, h₄⟩ := hp
      exact ⟨h₁, h₂, h₃, h₄, rfl⟩
    · refine List.Pairwise.imp ?_ (List.sorted_insertionSort ccLE _)
      intro a b hab
      rcases hab with h | ⟨he, hk⟩
      · exact ⟨le_of_lt h, fun e => absurd (e ▸ h) (lt_irrefl _)⟩
      · exact ⟨le_of_eq he.symm, fun _ => hk⟩
  · exact ⟨fun r hr => absurd hr (List.not_mem_nil r), List.sorted_nil⟩

/-- Witness for C1 at a three-row table. -/
theorem common_critical_filter_priority_sorted_witness :
    ("CVSS v3.0 Base Score" ∈ egTableCC.cols) ∧
    ((∀ r ∈ generate_common_critical egTableCC,
        (r.cvssCat = some "Critical" ∨ r.cvssCat = some "High") ∧
        (r.epssCat = some "Critical" ∨ r.epssCat = some "High") ∧
        (r.vprCat = some "Critical" ∨ r.vprCat = some "High") ∧
        r.kevListed = some "Yes" ∧
        r.combinedPriority =
          some (2 * severityValue r.cvssCat + severityValue r.epssCat +
            severityValue r.vprCat)) ∧
      (generate_common_critical egTableCC).Sorted (fun a b =>
          cpOf b ≤ cpOf a ∧ (cpOf a = cpOf b → rawCvssKey b ≤ rawCvssKey a))) :=
  ⟨by decide, common_critical_filter_priority_sorted egTableCC (by decide)⟩

/-! ### CVE lookup client -/

theorem fetchLoop_fail (cveId : String) (cache : Cache) (timeout : ℚ)
    (env : ℕ → ℚ × ApiOutcome) :
    ∀ (fuel i : ℕ),
      (∀ j, j < fuel →
        hasData (env (i + j)).2 = false ∨ ∃ k, k ≤ j ∧ timeout < (env (i + k)).1) →
      ∃ n, fetchLoop cveId cache timeout env i fuel =
        (notFoundEntry, setEntry cveId notFoundEntry cache, n)
  | 0, _, _ => ⟨0, rfl⟩
  | fuel + 1, i, h => by
    rcases henv : env i with ⟨tm, o⟩
    by_cases ht : timeout < tm
    · refine ⟨0, ?_⟩
      simp only [fetchLoop, henv]
      rw [if_pos ht]
    · have h0 := h 0 (Nat.succ_pos fuel)
      rw [Nat.add_zero, henv] at h0
      have hnd : hasData o = false := by
        rcases h0 with hf | ⟨k, hk, hlt⟩
        · exact hf
        · have hk0 : k = 0 := Nat.le_zero.mp hk
          subst hk0
          rw [Nat.add_zero, henv] at hlt
          exact absurd hlt ht
      have hrec : ∀ j, j < fuel →
          hasData (env (i + 1 + j)).2 = false ∨
            ∃ k, k ≤ j ∧ timeout < (env (i + 1 + k)).1 := by
        intro j hj
        have hj1 := h (j + 1) (Nat.succ_lt_succ hj)
        have e₁ : i + (j + 1) = i + 1 + j := by omega
        rw [e₁] at hj1
        rcases hj1 with hf | ⟨k, hk, hlt⟩
        · exact Or.inl hf
        · match k, hk with
          | 0, _ =>
            rw [Nat.add_zero, henv] at hlt
            exact absurd hlt ht
          | k' + 1, hk =>
            have e₂ : i + (k' + 1) = i + 1 + k' := by omega
            rw [e₂] at hlt
            exact Or.inr ⟨k', by omega, hlt⟩
      obtain ⟨n, hn⟩ := fetchLoop_fail cveId cache timeout env fuel (i + 1) hrec
      refine ⟨n + 1, ?_⟩
      simp only [fetchLoop, henv]
      rw [if_neg ht]
      cases o with
      | rateLimited => simp [hn]
      | requestError => simp [hn]
      | success d =>
        cases d with
        | none => simp [hn]
        | some dd => simp [hasData] at hnd

/-- C4: a cache hit returns exactly the stored entry, issues no HTTP
request, and leaves the cache unchanged. -/
theorem fetch_cached_no_network (cveId : String) (cache : Cache)
    (env : ℕ → ℚ × ApiOutcome) (timeout : ℚ) (e : CacheEntry)
    (h : getEntry cveId cache = some e) :
    fetch_cve_details cveId cache env timeout = (e, cache, 0) := by
  unfold fetch_cve_details
  rw [h]

/-- Witness for C4 at a one-entry cache. -/
theorem fetch_cached_no_network_witness :
    getEntry "CVE-2024-1234" egCache1 = some notFoundEntry ∧
    fetch_cve_details "CVE-2024-1234" egCache1 egEnvErr 30 =
      (notFoundEntry, egCache1, 0) :=
  ⟨by decide, fetch_cached_no_network "CVE-2024-1234" egCache1 egEnvErr 30
    notFoundEntry (by decide)⟩

/-- C5: for an uncached id, when every loop iteration either exceeds the
wall-clock budget or fails to carry data (rate limit, transport error,
or a success with an empty result set), the fetch stores and returns the
negative entry with patch status CVE Not Found, an empty reference list
and a null date, and a subsequent call for the same id returns the
cached negative entry with no request. -/
theorem fetch_failure_negative_caching (cveId : String) (cache : Cache)
    (env env₂ : ℕ → ℚ × ApiOutcome) (timeout timeout₂ : ℚ)
    (hmiss : getEntry cveId cache = none)
    (hfail : ∀ j, j < NVD_RETRY_ATTEMPTS →
      hasData (env j).2 = false ∨ ∃ k, k ≤ j ∧ timeout < (env k).1) :
    (fetch_cve_details cveId cache env timeout).1 = notFoundEntry ∧
    (fetch_cve_details cveId cache env timeout).2.1 =
      setEntry cveId notFoundEntry cache ∧
    getEntry cveId (fetch_cve_details cveId cache env timeout).2.1 =
      some notFoundEntry ∧
    notFoundEntry.patch_info.status = "CVE Not Found" ∧
    notFoundEntry.patch_info.references = [] ∧
    notFoundEntry.date_obj = none ∧
    fetch_cve_details cveId (fetch_cve_details cveId cache env timeout).2.1
        env₂ timeout₂ =
      (notFoundEntry, (fetch_cve_details cveId cache env timeout).2.1, 0) := by
  have hf' : ∀ j, j < NVD_RETRY_ATTEMPTS →
      hasData (env (0 + j)).2 = false ∨ ∃ k, k ≤ j ∧ timeout < (env (0 + k)).1 := by
    simpa using hfail
  obtain ⟨n, hn⟩ := fetchLoop_fail cveId cache timeout env NVD_RETRY_ATTEMPTS 0 hf'
  have hfetch : fetch_cve_details cveId cache env timeout =
      (notFoundEntry, setEntry cveId notFoundEntry cache, n) := by
    unfold fetch_cve_details
    rw [hmiss]
    exact hn
  rw [hfetch]
  refine ⟨rfl, rfl, getEntry_setEntry_self _ _ _, rfl, rfl, rfl, ?_⟩
  unfold fetch_cve_details
  rw [getEntry_setEntry_self]

/-- Witness for C5: an empty cache and a connection that always errors. -/
theorem fetch_failure_negative_caching_witness :
    getEntry "CVE-2099-0001" [] = none ∧
    ((fetch_cve_details "CVE-2099-0001" [] egEnvErr 30).1 = notFoundEntry ∧
      (fetch_cve_details "CVE-2099-0001" [] egEnvErr 30).2.1 =
        setEntry "CVE-2099-0001" notFoundEntry [] ∧
      getEntry "CVE-2099-0001"
        (fetch_cve_details "CVE-2099-0001" [] egEnvErr 30).2.1 =
        some notFoundEntry ∧
      notFoundEntry.patch_info.status = "CVE Not Found" ∧
      notFoundEntry.patch_info.references = [] ∧
      notFoundEntry.date_obj = none ∧
      fetch_cve_details "CVE-2099-0001"
        (fetch_cve_details "CVE-2099-0001" [] egEnvErr 30).2.1 egEnvEmpty 30 =
        (notFoundEntry,
          (fetch_cve_details "CVE-2099-0001" [] egEnvErr 30).2.1, 0)) :=
  ⟨rfl, fetch_failure_negative_caching "CVE-2099-0001" [] egEnvErr egEnvEmpty
    30 30 rfl (by decide)⟩

/-! ### Cache store -/

theorem load_save_aux (today : String) (cache : Cache) :
    ∀ (acc : Cache), (cache.map Prod.fst).Nodup → ∀ id,
      getEntry id (List.foldl (fun c cr => setEntry cr.cve_id (loadRecord cr) c)
        acc (save_cve_cache cache today)) =
      (getEntry id cache).elim (getEntry id acc) some := by
  induction cache with
  | nil =>
    intro acc _ id
    simp [save_cve_cache, getEntry, Option.elim]
  | cons kv rest ih =>
    intro acc hnd id
    rw [List.map_cons, List.nodup_cons] at hnd
    obtain ⟨hmem, hnd'⟩ := hnd
    show getEntry id (List.foldl (fun c cr => setEntry cr.cve_id (loadRecord cr) c)
        (setEntry kv.1 kv.2 acc) (save_cve_cache rest today)) =
      (getEntry id (kv :: rest)).elim (getEntry id acc) some
    rw [ih (setEntry kv.1 kv.2 acc) hnd' id]
    by_cases hik : kv.1 = id
    · subst hik
      rw [getEntry_eq_none kv.1 rest hmem]
      simp only [Option.elim]
      rw [getEntry_setEntry_self]
      simp [getEntry, Option.elim]
    · have hne : getEntry id (kv :: rest) = getEntry id rest := by
        simp only [getEntry]
        rw [if_neg hik]
      rw [hne, getEntry_setEntry_ne kv.1 id kv.2 (Ne.symm hik) acc]

/-- C6: saving then loading the cache reproduces the same mapping
(publication date, patch status and reference list unchanged); a missing
file loads as the empty mapping; a record with a malformed references
cell loads with an empty reference list instead of failing. -/
theorem cache_save_load_roundtrip (cache : Cache) (today : String)
    (cr : CacheRecord) (hnd : (cache.map Prod.fst).Nodup)
    (hmal : cr.references = .malformed) :
    (∀ id, getEntry id (load_cve_cache (some (save_cve_cache cache today))) =
      getEntry id cache) ∧
    load_cve_cache none = [] ∧
    load_cve_cache (some [cr]) =
      [(cr.cve_id, { date_obj := cr.date_obj,
                     patch_info := { status := cr.patch_status,
                                     references := [] } })] := by
  refine ⟨?_, rfl, ?_⟩
  · intro id
    show getEntry id (List.foldl (fun c cr => setEntry cr.cve_id (loadRecord cr) c)
        [] (save_cve_cache cache today)) = getEntry id cache
    rw [load_save_aux today cache [] hnd id]
    cases h : getEntry id cache <;> simp [Option.elim, getEntry]
  · show List.foldl (fun c cr => setEntry cr.cve_id (loadRecord cr) c) [] [cr] = _
    simp [loadRecord, setEntry, hmal]

/-- Witness for C6 at a one-entry cache and a malformed record. -/
theorem cache_save_load_roundtrip_witness :
    ((egCache1.map Prod.fst).Nodup) ∧
    (egRecMal.references = .malformed) ∧
    ((∀ id, getEntry id (load_cve_cache
        (some (save_cve_cache egCache1 "2026-10-12"))) = getEntry id egCache1) ∧
    load_cve_cache none = [] ∧
    load_cve_cache (some [egRecMal]) =
      [(egRecMal.cve_id,
        { date_obj := egRecMal.date_obj,
          patch_info := { status := egRecMal.patch_status,
                          references := [] } })]) :=
  ⟨by decide, rfl,
    cache_save_load_roundtrip egCache1 "2026-10-12" egRecMal (by decide) rfl⟩

/-! ### Categorization -/

theorem severityFromName_cases (nm : Mappings) (name : Option String) :
    severityFromName nm name ∈ nm.map Prod.fst ∨
    severityFromName nm name = "Informational" ∨
    severityFromName nm name = "Check Needed" := by
  cases name with
  | none => exact Or.inr (Or.inl rfl)
  | some n =>
    simp only [severityFromName]
    cases hf : nm.find? fun sp => sp.2.any fun pat =>
        pyIn (lowerStr pat) (lowerStr n) with
    | none => exact Or.inr (Or.inr rfl)
    | some sp =>
      exact Or.inl (List.mem_map.mpr ⟨sp, List.mem_of_find?_eq_some hf, rfl⟩)

/-- Counterexample to C7: a declared non-canonical, non-empty risk label
passes through categorization unchanged, so the output risk is not one
of the seven canonical labels. -/
theorem categorize_noncanonical_passthrough_cex :
    ((categorize_vulnerabilities [] [] egTableBanana).rows.map fun r => r.risk) =
      [some "Banana"] ∧
    "Banana" ∉ (["Critical", "High", "Medium", "Low", "None",
      "Informational", "Check Needed"] : List String) :=
  ⟨rfl, by decide⟩

/-- C7 as amended: after categorization every risk cell is non-null; a
truthy declared risk other than the None sentinel passes through
unchanged (so it already occurs in the input), and otherwise the
assigned risk is Informational, Check Needed, or one of the severity
labels of the name mappings — canonical whenever declared risks and
mapping labels are. -/
theorem risk_labels_after_categorization (nm bm : Mappings) (t : Table) :
    ∀ r ∈ (categorize_vulnerabilities nm bm t).rows,
      r.risk.isSome = true ∧
      ∀ s, r.risk = some s →
        s ∈ nm.map Prod.fst ∨ s = "Informational" ∨ s = "Check Needed" ∨
        ∃ r₀ ∈ t.rows, r₀.risk = some s := by
  intro r hr
  simp only [categorize_vulnerabilities] at hr
  obtain ⟨r₀, hr₀, rfl⟩ := List.mem_map.mp hr
  refine ⟨rfl, ?_⟩
  intro s hs
  have hs' : assign_severity nm r₀.name r₀.risk = s := Option.some.inj hs
  have hname : ∀ hsev : severityFromName nm r₀.name = s,
      s ∈ nm.map Prod.fst ∨ s = "Informational" ∨ s = "Check Needed" ∨
        ∃ r₁ ∈ t.rows, r₁.risk = some s := by
    intro hsev
    rcases severityFromName_cases nm r₀.name with h | h | h <;> rw [hsev] at h
    · exact Or.inl h
    · exact Or.inr (Or.inl h)
    · exact Or.inr (Or.inr (Or.inl h))
  unfold assign_severity at hs'
  cases hrisk : r₀.risk with
  | none =>
    rw [hrisk] at hs'
    exact hname hs'
  | some s₀ =>
    rw [hrisk] at hs'
    simp only at hs'
    by_cases hv : s₀ = "" ∨ s₀ = "None"
    · rw [if_pos hv] at hs'
      exact hname hs'
    · rw [if_neg hv] at hs'
      exact Or.inr (Or.inr (Or.inr ⟨r₀, hr₀, by rw [hrisk, hs']⟩))

/-- Witness for C7 (amended) at the declared-Banana table and its single
categorized row. -/
theorem risk_labels_after_categorization_witness :
    (egRowBananaOut ∈ (categorize_vulnerabilities [] [] egTableBanana).rows) ∧
    (egRowBananaOut.risk.isSome = true ∧
      ∀ s, egRowBananaOut.risk = some s →
        s ∈ ([] : Mappings).map Prod.fst ∨ s = "Informational" ∨
        s = "Check Needed" ∨ ∃ r₀ ∈ egTableBanana.rows, r₀.risk = some s) :=
  ⟨by decide,
    risk_labels_after_categorization [] [] egTableBanana egRowBananaOut
      (by decide)⟩

theorem append_ne_empty_left (b x : String) (hb : b ≠ "") : b ++ x ≠ "" := by
  intro h
  apply hb
  have h0 : String.length "" = 0 := rfl
  have hl := congrArg String.length h
  rw [String.length_append, h0] at hl
  have hb0 : b.length = 0 := by omega
  cases b with
  | mk data =>
    cases data with
    | nil => rfl
    | cons c cs => simp [String.length] at hb0

theorem joinComma_ne_empty : ∀ (b : String) (rest : List String),
    b ≠ "" → joinComma (b :: rest) ≠ ""
  | b, [], hb => by simpa [joinComma] using hb
  | b, c :: rest, hb => by
    show b ++ ", " ++ joinComma (c :: rest) ≠ ""
    exact append_ne_empty_left (b ++ ", ") _ (append_ne_empty_left b ", " hb)

/-- Counterexample to C8: a missing (NaN) finding name yields the empty
bucket string, not Miscellaneous. -/
theorem categorize_name_missing_empty_cex :
    categorize_name egBm none = "" := rfl

/-- C8 as amended: for every present name the bucket string is
non-empty — Miscellaneous when no bucket matches — while a missing
(null) name yields the empty string.  The hypothesis asks the bucket
labels to be non-empty, as every label of the keyword table is. -/
theorem bucket_assignment_nonempty (bm : Mappings) (n : String)
    (hbm : ∀ p ∈ bm, p.1 ≠ "") :
    categorize_name bm (some n) ≠ "" ∧ categorize_name bm none = "" := by
  refine ⟨?_, rfl⟩
  simp only [categorize_name]
  rcases hxs : (bm.filter fun bk => bk.2.any fun kw =>
      pyIn (lowerStr kw) (lowerStr n)).map Prod.fst with _ | ⟨b, rest⟩
  · rw [hxs]
    decide
  · rw [hxs]
    simp only [List.isEmpty_cons, if_false, Bool.false_eq_true]
    have hb : b ≠ "" := by
      have hbmem : b ∈ (bm.filter fun bk => bk.2.any fun kw =>
          pyIn (lowerStr kw) (lowerStr n)).map Prod.fst := by
        rw [hxs]
        exact List.mem_cons_self b rest
      obtain ⟨q, hq, rfl⟩ := List.mem_map.mp hbmem
      exact hbm q (List.mem_of_mem_filter hq)
    exact joinComma_ne_empty b rest hb

/-- Witness for C8 (amended) at a one-bucket mapping. -/
theorem bucket_assignment_nonempty_witness :
    (∀ p ∈ egBm, p.1 ≠ "") ∧
    (categorize_name egBm (some "Apache HTTP Server") ≠ "" ∧
     categorize_name egBm none = "") :=
  ⟨by decide, bucket_assignment_nonempty egBm "Apache HTTP Server" (by decide)⟩

/-! ### Pipeline: rows and columns through the stages -/

theorem risk_addCvssCat {t : Table} {r : Row} (h : r ∈ (addCvssCat t).rows) :
    ∃ r₀ ∈ t.rows, r.risk = r₀.risk := by
  unfold addCvssCat at h
  split_ifs at h
  · obtain ⟨r₀, hr₀, rfl⟩ := List.mem_map.mp h
    exact ⟨r₀, hr₀, rfl⟩
  · exact ⟨r, h, rfl⟩

theorem risk_addEpssCat {t : Table} {r : Row} (h : r ∈ (addEpssCat t).rows) :
    ∃ r₀ ∈ t.rows, r.risk = r₀.risk := by
  unfold addEpssCat at h
  split_ifs at h
  · obtain ⟨r₀, hr₀, rfl⟩ := List.mem_map.mp h
    exact ⟨r₀, hr₀, rfl⟩
  · exact ⟨r, h, rfl⟩

theorem risk_addVprCat {t : Table} {r : Row} (h : r ∈ (addVprCat t).rows) :
    ∃ r₀ ∈ t.rows, r.risk = r₀.risk := by
  unfold addVprCat at h
  split_ifs at h
  · obtain ⟨r₀, hr₀, rfl⟩ := List.mem_map.mp h
    exact ⟨r₀, hr₀, rfl⟩
  · exact ⟨r, h, rfl⟩

theorem risk_addExploit {t : Table} {r : Row} (h : r ∈ (addExploit t).rows) :
    ∃ r₀ ∈ t.rows, r.risk = r₀.risk := by
  unfold addExploit at h
  split_ifs at h
  · obtain ⟨r₀, hr₀, rfl⟩ := List.mem_map.mp h
    exact ⟨r₀, hr₀, rfl⟩
  · exact ⟨r, h, rfl⟩

theorem risk_add_scoring {t : Table} {r : Row}
    (h : r ∈ (add_scoring_data t).rows) : ∃ r₀ ∈ t.rows, r.risk = r₀.risk := by
  obtain ⟨r₃, h₃, e₃⟩ := risk_addExploit h
  obtain ⟨r₂, h₂, e₂⟩ := risk_addVprCat h₃
  obtain ⟨r₁, h₁, e₁⟩ := risk_addEpssCat h₂
  obtain ⟨r₀, h₀, e₀⟩ := risk_addCvssCat h₁
  exact ⟨r₀, h₀, by rw [e₃, e₂, e₁, e₀]⟩

theorem enrichRow_risk (k : List String) (c : Cache) (d : String → ℤ)
    (r : Row) : (enrichRow k c d r).risk = r.risk := rfl

theorem analyze_fst_rows (k : List String) (c : Cache) (d : String → ℤ)
    (t : Table) : (analyze_vulnerability_data k c d t).1.rows =
      t.rows.map (enrichRow k c d) := rfl

theorem analyze_fst_cols (k : List String) (c : Cache) (d : String → ℤ)
    (t : Table) : (analyze_vulnerability_data k c d t).1.cols =
      addCol "Patch Status" (addCol "KEV Listed" (addCol "Days After Discovery"
        (addCol "CVE Published Date" t.cols))) := rfl

theorem filter_informational_no_none {t : Table} {r : Row}
    (h : r ∈ (filter_informational t).rows) :
    ¬ (r.risk = some "None" ∨ r.risk = some "Informational") :=
  of_decide_eq_true (List.mem_filter.mp h).2

theorem scored_source_no_none (nm bm : Mappings) (t : Table) {r : Row}
    (h : r ∈ (add_scoring_data (filter_informational
      (categorize_vulnerabilities nm bm t))).rows) :
    r.risk ≠ some "None" := by
  obtain ⟨r₀, h₀, e₀⟩ := risk_add_scoring h
  intro heq
  exact filter_informational_no_none h₀ (Or.inl (by rw [← e₀, heq]))

/-- Counterexample to C9: with a name mapping carrying a None severity
label, the single row of the kernel table is assigned risk None after
categorization, yet the enriched table returned by the pipeline is
empty — the row is not present in it. -/
theorem risk_none_dropped_from_enriched_cex :
    ((categorize_vulnerabilities egNmNone [] egTableKernel).rows.map
      fun r => r.risk) = [some "None"] ∧
    (process_vulnerability_data egNmNone [] egTableKernel [] []
      (fun _ => egEnvErr) (fun _ => 0)).2.1.rows = [] :=
  ⟨rfl, rfl⟩

/-- C9 as amended: a finding whose post-categorization risk is None is
excluded from the enriched table the pipeline returns, from the
check-needed view, and from the analyzed subset that every aggregation
generator consumes; it survives only in the untouched original table,
returned unchanged as the first component. -/
theorem risk_none_excluded_everywhere (nm bm : Mappings) (t : Table)
    (kevSet : List String) (cache0 : Cache)
    (env : String → ℕ → ℚ × ApiOutcome) (daysSince : String → ℤ) :
    (∀ r ∈ (process_vulnerability_data nm bm t kevSet cache0 env
        daysSince).2.1.rows, r.risk ≠ some "None") ∧
    (∀ r ∈ (process_vulnerability_data nm bm t kevSet cache0 env
        daysSince).2.2.1.rows, r.risk ≠ some "None") ∧
    (∀ r ∈ (process_vulnerability_data nm bm t kevSet cache0 env
        daysSince).2.2.2.rows, r.risk ≠ some "None") ∧
    (process_vulnerability_data nm bm t kevSet cache0 env daysSince).1 = t := by
  refine ⟨?_, ?_, ?_, rfl⟩
  · intro r hr
    simp only [process_vulnerability_data] at hr
    rw [analyze_fst_rows] at hr
    obtain ⟨r₁, hr₁, rfl⟩ := List.mem_map.mp hr
    rw [enrichRow_risk]
    exact scored_source_no_none nm bm t hr₁
  · intro r hr
    simp only [process_vulnerability_data] at hr
    have hr' := List.mem_filter.mp (List.mem_filter.mp hr).1
    obtain ⟨r₁, hr₁, rfl⟩ := List.mem_map.mp hr'.1
    rw [enrichRow_risk]
    exact scored_source_no_none nm bm t hr₁
  · intro r hr
    simp only [process_vulnerability_data] at hr
    have hr' := List.mem_filter.mp (List.mem_filter.mp hr).1
    obtain ⟨r₁, hr₁, rfl⟩ := List.mem_map.mp hr'.1
    rw [enrichRow_risk]
    exact scored_source_no_none nm bm t hr₁

/-- Witness for C9 (amended) at a one-row declared-High table. -/
theorem risk_none_excluded_everywhere_witness :
    (∀ r ∈ (process_vulnerability_data [] [] egTableHigh [] []
        (fun _ => egEnvErr) (fun _ => 0)).2.1.rows, r.risk ≠ some "None") ∧
    (∀ r ∈ (process_vulnerability_data [] [] egTableHigh [] []
        (fun _ => egEnvErr) (fun _ => 0)).2.2.1.rows, r.risk ≠ some "None") ∧
    (∀ r ∈ (process_vulnerability_data [] [] egTableHigh [] []
        (fun _ => egEnvErr) (fun _ => 0)).2.2.2.rows, r.risk ≠ some "None") ∧
    (process_vulnerability_data [] [] egTableHigh [] []
      (fun _ => egEnvErr) (fun _ => 0)).1 = egTableHigh :=
  risk_none_excluded_everywhere [] [] egTableHigh [] []
    (fun _ => egEnvErr) (fun _ => 0)

theorem cols_addCvssCat {a : String} {t : Table}
    (h : a ∈ (addCvssCat t).cols) : a = "CVSS Category" ∨ a ∈ t.cols := by
  unfold addCvssCat at h
  split_ifs at h
  · exact mem_addCol.mp h
  · exact Or.inr h

theorem cols_addEpssCat {a : String} {t : Table}
    (h : a ∈ (addEpssCat t).cols) : a = "EPSS Category" ∨ a ∈ t.cols := by
  unfold addEpssCat at h
  split_ifs at h
  · exact mem_addCol.mp h
  · exact Or.inr h

theorem cols_addVprCat {a : String} {t : Table}
    (h : a ∈ (addVprCat t).cols) : a = "VPR Category" ∨ a ∈ t.cols := by
  unfold addVprCat at h
  split_ifs at h
  · exact mem_addCol.mp h
  · exact Or.inr h

theorem addExploit_no_kev {t : Table} (h : "KEV Listed" ∉ t.cols) :
    addExploit t = t := by
  unfold addExploit
  rw [if_neg]
  intro hc
  exact h hc.2.2

theorem cols_categorized {a : String} (nm bm : Mappings) {t : Table}
    (h : a ∈ (categorize_vulnerabilities nm bm t).cols) :
    a = "Bucket" ∨ a = "Risk" ∨ a ∈ t.cols := by
  have h' : a ∈ addCol "Bucket" (addCol "Risk" t.cols) := h
  rcases mem_addCol.mp h' with h₁ | h₁
  · exact Or.inl h₁
  · rcases mem_addCol.mp h₁ with h₂ | h₂
    · exact Or.inr (Or.inl h₂)
    · exact Or.inr (Or.inr h₂)

/-- Counterexample to C10: an input table that already carries an
exploitability column (and no KEV column) keeps it, so the enriched
output table does have an Exploitability Score column. -/
theorem exploit_col_preexisting_cex :
    "KEV Listed" ∉ egTableExploit.cols ∧
    "Exploitability Score" ∈
      (process_vulnerability_data [] [] egTableExploit [] []
        (fun _ => egEnvErr) (fun _ => 0)).2.1.cols :=
  ⟨by decide, by decide⟩

/-- C10 as amended: for an input table with neither a KEV Listed nor an
Exploitability Score column, the pipeline never adds an Exploitability
Score column: the scoring stage runs before the KEV flag is assigned,
its guard fails, and the analysis stage adds only its four enrichment
columns. -/
theorem no_exploitability_column_added (nm bm : Mappings) (t : Table)
    (kevSet : List String) (cache0 : Cache)
    (env : String → ℕ → ℚ × ApiOutcome) (daysSince : String → ℤ)
    (hkev : "KEV Listed" ∉ t.cols)
    (hexp : "Exploitability Score" ∉ t.cols) :
    "Exploitability Score" ∉
      (process_vulnerability_data nm bm t kevSet cache0 env
        daysSince).2.1.cols := by
  intro hmem
  simp only [process_vulnerability_data] at hmem
  rw [analyze_fst_cols] at hmem
  have hW : ∀ a : String, a ∈ (filter_informational
      (categorize_vulnerabilities nm bm t)).cols →
      a = "Bucket" ∨ a = "Risk" ∨ a ∈ t.cols := fun a ha =>
    cols_categorized nm bm ha
  have hkevW : "KEV Listed" ∉ (addVprCat (addEpssCat (addCvssCat
      (filter_informational (categorize_vulnerabilities nm bm t))))).cols := by
    intro hk
    rcases cols_addVprCat hk with h | hk
    · exact absurd h (by decide)
    rcases cols_addEpssCat hk with h | hk
    · exact absurd h (by decide)
    rcases cols_addCvssCat hk with h | hk
    · exact absurd h (by decide)
    rcases hW _ hk with h | h | h
    · exact absurd h (by decide)
    · exact absurd h (by decide)
    · exact hkev h
  have hscored : add_scoring_data (filter_informational
      (categorize_vulnerabilities nm bm t)) =
      addVprCat (addEpssCat (addCvssCat (filter_informational
        (categorize_vulnerabilities nm bm t)))) :=
    addExploit_no_kev hkevW
  rw [hscored] at hmem
  rcases mem_addCol.mp hmem with h | hmem
  · exact absurd h (by decide)
  rcases mem_addCol.mp hmem with h | hmem
  · exact absurd h (by decide)
  rcases mem_addCol.mp hmem with h | hmem
  · exact absurd h (by decide)
  rcases mem_addCol.mp hmem with h | hmem
  · exact absurd h (by decide)
  rcases cols_addVprCat hmem with h | hmem
  · exact absurd h (by decide)
  rcases cols_addEpssCat hmem with h | hmem
  · exact absurd h (by decide)
  rcases cols_addCvssCat hmem with h | hmem
  · exact absurd h (by decide)
  rcases hW _ hmem with h | h | h
  · exact absurd h (by decide)
  · exact absurd h (by decide)
  · exact hexp h

/-- Witness for C10 (amended) at a one-row declared-High table. -/
theorem no_exploitability_column_added_witness :
    ("KEV Listed" ∉ egTableHigh.cols) ∧
    ("Exploitability Score" ∉ egTableHigh.cols) ∧
    "Exploitability Score" ∉
      (process_vulnerability_data [] [] egTableHigh [] []
        (fun _ => egEnvErr) (fun _ => 0)).2.1.cols :=
  ⟨by decide, by decide,
    no_exploitability_column_added [] [] egTableHigh [] []
      (fun _ => egEnvErr) (fun _ => 0) (by decide) (by decide)⟩

end Insider
